import Mathlib

/-!
Shallow embedding of the HTTP access-logging middleware
(`middleware/logging/apache.go` and its callers) together with proofs about
the log-line formatter, the response observer, the permission guardian and
the middleware adapter.

Go strings are modelled as Lean `String`, Go `int` fields that hold
non-negative counts as `Nat`, timezone offsets as `Int` minutes, and the
filesystem as explicit maps from paths to file records.  Fallible
operations return `Except String`.
-/

namespace HttpLogging

/-- Go type `LogFormat string`: an open string type, not a closed enum. -/
abbrev LogFormat := String

/-- Constant `CommonLogFormat LogFormat = "common"`. -/
def CommonLogFormat : LogFormat := "common"

/-- Constant `CombinedLogFormat LogFormat = "combined"`. -/
def CombinedLogFormat : LogFormat := "combined"

/-- Month of a wall-clock instant (Go `time.Month`, valid values only). -/
inductive Month where
  | jan | feb | mar | apr | may | jun | jul | aug | sep | oct | nov | dec
deriving DecidableEq, Repr

/-- The three-letter English abbreviation Go prints for the layout word `Jan`. -/
def monthAbbrev : Month → String
  | .jan => "Jan" | .feb => "Feb" | .mar => "Mar" | .apr => "Apr"
  | .may => "May" | .jun => "Jun" | .jul => "Jul" | .aug => "Aug"
  | .sep => "Sep" | .oct => "Oct" | .nov => "Nov" | .dec => "Dec"

/-- A wall-clock instant with its timezone, the fields of Go `time.Time`
that the Apache layout string reads.  `offsetMinutes` is the zone offset
east of UTC in minutes. -/
structure GoTime where
  year : Nat
  month : Month
  day : Nat
  hour : Nat
  minute : Nat
  second : Nat
  offsetMinutes : Int
deriving Repr

/-- Decimal rendering zero-padded to two digits (Go layout words `02`, `15`,
`04`, `05`). -/
def pad2 (n : Nat) : String :=
  if n < 10 then "0" ++ toString n else toString n

/-- Decimal rendering zero-padded to four digits (Go layout word `2006`). -/
def pad4 (n : Nat) : String :=
  if n < 10 then "000" ++ toString n
  else if n < 100 then "00" ++ toString n
  else if n < 1000 then "0" ++ toString n
  else toString n

/-- The numeric UTC offset in sign-hours-minutes form (Go layout word
`-0700`). -/
def offsetHHMM (offsetMinutes : Int) : String :=
  if offsetMinutes < 0 then
    "-" ++ pad2 ((-offsetMinutes).toNat / 60) ++ pad2 ((-offsetMinutes).toNat % 60)
  else
    "+" ++ pad2 (offsetMinutes.toNat / 60) ++ pad2 (offsetMinutes.toNat % 60)

/-- Go expression `start.Format "[02/Jan/2006:15:04:05 -0700]"` from `formatLogEntry`. -/
def formatApacheTime (t : GoTime) : String :=
  "[" ++ pad2 t.day ++ "/" ++ monthAbbrev t.month ++ "/" ++ pad4 t.year ++ ":" ++
    pad2 t.hour ++ ":" ++ pad2 t.minute ++ ":" ++ pad2 t.second ++ " " ++
    offsetHHMM t.offsetMinutes ++ "]"

/-- The fields of `*http.Request` that the logging middleware reads.
`referer` and `userAgent` model `r.Header.Get("Referer")` and
`r.Header.Get("User-Agent")`, which return `""` when the header is absent. -/
structure Request where
  RemoteAddr : String
  Method : String
  RequestURI : String
  Proto : String
  referer : String
  userAgent : String
deriving Repr

/-- Go struct `responseWrapper`: the recorded status code and cumulative
byte count (the embedded `http.ResponseWriter` is modelled separately). -/
structure ResponseWrapper where
  status : Nat
  size : Nat
deriving DecidableEq, Repr

/-- Go function `formatLogEntry(r, wrapper, start, format)`. -/
def formatLogEntry (r : Request) (wrapper : ResponseWrapper) (start : GoTime)
    (format : LogFormat) : String :=
  let remoteAddr := r.RemoteAddr
  let timeFormatted := formatApacheTime start
  let logEntry := remoteAddr ++ " - - " ++ timeFormatted ++ " \"" ++ r.Method ++ " " ++
    r.RequestURI ++ " " ++ r.Proto ++ "\" " ++ toString wrapper.status ++ " " ++
    toString wrapper.size
  if format = CombinedLogFormat then
    let referer := if r.referer = "" then "-" else r.referer
    let userAgent := if r.userAgent = "" then "-" else r.userAgent
    logEntry ++ " \"" ++ referer ++ "\" \"" ++ userAgent ++ "\""
  else
    logEntry

/-- Method `responseWrapper.WriteHeader`: overwrites the recorded status
with the given one (and forwards to the embedded writer, which carries no
recorded state in this model). -/
def ResponseWrapper.writeHeader (rw : ResponseWrapper) (status : Nat) : ResponseWrapper :=
  { rw with status := status }

/-- The wrapper as constructed in `ApacheLogMiddleware`: default status 200,
zero bytes written. -/
def initialWrapper : ResponseWrapper :=
  { status := 200, size := 0 }

/-- The recorded state after a handler issues a sequence of WriteHeader
calls. -/
def applyWriteHeaders (rw : ResponseWrapper) (statuses : List Nat) : ResponseWrapper :=
  statuses.foldl ResponseWrapper.writeHeader rw

/-- One planned reaction of the underlying `http.ResponseWriter` to a
`Write` call: how many bytes it accepts before stopping, and the error it
returns, if any. -/
structure WriteOutcome where
  accept : Nat
  err : Option String
deriving Repr

/-- The underlying `http.ResponseWriter` as the wrapper sees it: the bytes
it has actually accepted so far, and a plan of outcomes for future writes
(an empty plan means every write is accepted in full). -/
structure UnderlyingWriter where
  received : List Nat
  plan : List WriteOutcome
deriving Repr

/-- Call `rw.ResponseWriter.Write(b)`: consume the next planned outcome, append
the accepted prefix of `b`, and return the accepted count and the error. -/
def UnderlyingWriter.write (u : UnderlyingWriter) (b : List Nat) :
    UnderlyingWriter × Nat × Option String :=
  match u.plan with
  | [] => ({ u with received := u.received ++ b }, b.length, none)
  | o :: rest =>
      let n := min o.accept b.length
      ({ received := u.received ++ b.take n, plan := rest }, n, o.err)

/-- Method `responseWrapper.Write`: forward the bytes to the underlying
writer, add the count it actually wrote to `size`, and return that count
and the error unchanged. -/
def wrapperWrite (st : ResponseWrapper × UnderlyingWriter) (b : List Nat) :
    (ResponseWrapper × UnderlyingWriter) × Nat × Option String :=
  let r := st.2.write b
  (({ st.1 with size := st.1.size + r.2.1 }, r.1), r.2)

/-- A handler issuing a sequence of body writes through the wrapper,
collecting the per-call results. -/
def runWrites (st : ResponseWrapper × UnderlyingWriter) :
    List (List Nat) → (ResponseWrapper × UnderlyingWriter) × List (Nat × Option String)
  | [] => (st, [])
  | b :: bs =>
      let step := wrapperWrite st b
      let rest := runWrites step.1 bs
      (rest.1, step.2 :: rest.2)

/-- A file on disk: its permission bits and its content bytes. -/
structure FileRec where
  mode : Nat
  content : List Nat
deriving DecidableEq, Repr

/-- The filesystem as the permission guardian sees it: directory paths with
their permission bits and file paths with their records. -/
structure FS where
  dirs : String → Option Nat
  files : String → Option FileRec

/-- A filesystem with no directories and no files. -/
def emptyFS : FS :=
  { dirs := fun _ => none, files := fun _ => none }

/-- Model of `os.Chmod(p, m)` on an existing file (no effect on a missing one). -/
def chmodFile (fs : FS) (p : String) (m : Nat) : FS :=
  { fs with
    files := fun q =>
      if q = p then (fs.files p).map (fun r => { r with mode := m }) else fs.files q }

/-- Model of `os.OpenFile(p, O_CREATE|O_APPEND|O_WRONLY, m)` followed by `Close` on
a path that does not yet exist: an empty file with permission bits `m`. -/
def createFile (fs : FS) (p : String) (m : Nat) : FS :=
  { fs with
    files := fun q =>
      if q = p then some { mode := m, content := [] } else fs.files q }

/-- Model of `os.MkdirAll(d, m)`: create the directory with permission bits `m` if
absent, leave it untouched if it already exists. -/
def mkdirAll (fs : FS) (d : String) (m : Nat) : FS :=
  match fs.dirs d with
  | some _ => fs
  | none => { fs with dirs := fun q => if q = d then some m else fs.dirs q }

/-- Model of `filepath.Dir`: the path up to the last slash, `"."` when there is no
slash.  (The `Clean` normalization Go applies to degenerate paths such as
`"/x"` is not modelled; no claim depends on it.) -/
def dirName (p : String) : String :=
  match p.data.reverse.dropWhile (fun c => c ≠ '/') with
  | [] => "."
  | _ :: rest => String.mk rest.reverse

/-- Go function `secureLogFile(logPath)`: ensure the parent directory
exists (mode 0750), create the file with mode 0640 when absent, and chmod
it to 0640 when present with different permission bits.  `denied` injects
an `os.Chmod` permission failure for the given path. -/
def secureLogFile (denied : String → Bool) (logPath : String) (fs : FS) :
    Except String FS :=
  let fs1 := mkdirAll fs (dirName logPath) 0o750
  match fs1.files logPath with
  | none => .ok (createFile fs1 logPath 0o640)
  | some info =>
      if info.mode ≠ 0o640 then
        if denied logPath then .error ("failed to set log file permissions")
        else .ok (chmodFile fs1 logPath 0o640)
      else .ok fs1

/-- The per-candidate loop of Go function `SecureRotatedLogs`: for each
match, `os.Stat` it (an absent file is a stat error, and the code returns
on any stat error), then chmod to 0640 when the permission bits differ,
returning on a chmod failure. -/
def secureRotatedLoop (denied : String → Bool) : FS → List String → Except String FS
  | fs, [] => .ok fs
  | fs, m :: rest =>
      match fs.files m with
      | none => .error ("failed to stat log file " ++ m)
      | some info =>
          if info.mode ≠ 0o640 then
            if denied m then .error ("failed to chmod log file " ++ m)
            else secureRotatedLoop denied (chmodFile fs m 0o640) rest
          else secureRotatedLoop denied fs rest

/-- Go function `SecureRotatedLogs(logPath)`: `matches` stands for the
result of `filepath.Glob` on the pattern derived from the live path; the
function then runs the fix-up loop over those candidates. -/
def SecureRotatedLogs (denied : String → Bool) (fs : FS) (ms : List String) :
    Except String FS :=
  secureRotatedLoop denied fs ms

/-- A handler panic, carrying its message. -/
abbrev Panic := String

/-- Go function `ApacheLogMiddleware(logger, format)`, specialized to one
request: capture the start time, build the wrapper with default status 200,
run the next handler (which either returns the final wrapper state or
panics), and on normal return append exactly one formatted line to the
logger; a panic propagates and nothing is logged. -/
def ApacheLogMiddleware (format : LogFormat)
    (next : Request → ResponseWrapper → Except Panic ResponseWrapper)
    (r : Request) (start : GoTime) (logged : List String) : Except Panic (List String) :=
  match next r initialWrapper with
  | .error p => .error p
  | .ok w => .ok (logged ++ [formatLogEntry r w start format])

/-- The Common-format line as the specification words it, chunk by chunk:
remote address, `" - - "`, bracketed timestamp with two-digit day,
month abbreviation, four-digit year, zero-padded time, offset in
sign-hours-minutes form, then the quoted request line, status and bytes. -/
def specCommonLine (r : Request) (wrapper : ResponseWrapper) (start : GoTime) : String :=
  r.RemoteAddr ++ " - - [" ++ pad2 start.day ++ "/" ++ monthAbbrev start.month ++ "/" ++
    pad4 start.year ++ ":" ++ pad2 start.hour ++ ":" ++ pad2 start.minute ++ ":" ++
    pad2 start.second ++ " " ++ offsetHHMM start.offsetMinutes ++ "] \"" ++
    r.Method ++ " " ++ r.RequestURI ++ " " ++ r.Proto ++ "\" " ++
    toString wrapper.status ++ " " ++ toString wrapper.size

/-- The fixed observation of the specification's round-trip test: remote
address 1.2.3.4, request line GET /api/hello HTTP/1.1, no headers. -/
def exReq : Request :=
  { RemoteAddr := "1.2.3.4", Method := "GET", RequestURI := "/api/hello",
    Proto := "HTTP/1.1", referer := "", userAgent := "" }

/-- Start time 10 Oct 2023 13:55:36 UTC. -/
def exTime : GoTime :=
  { year := 2023, month := .oct, day := 10, hour := 13, minute := 55,
    second := 36, offsetMinutes := 0 }

/-- An environment in which every chmod succeeds. -/
def den0 : String → Bool := fun _ => false

/-- An environment in which every chmod fails with a permission error. -/
def den1 : String → Bool := fun _ => true

/-- A directory holding one live log file at mode 0644; the candidate list
will also name a rotated sibling that has already been deleted. -/
def fsGhost : FS :=
  { dirs := fun _ => none,
    files := fun q => if q = "live.log" then some { mode := 0o644, content := [] } else none }

/-- The specification's permission-guardian test directory: files at mode
0644 and 0600. -/
def fs6 : FS :=
  { dirs := fun _ => none,
    files := fun q =>
      if q = "x.log" then some { mode := 0o644, content := [] }
      else if q = "x.log.1" then some { mode := 0o600, content := [] }
      else none }

/-- Same shape as `fsGhost` for the guardian-pass counterexample: the kept
sibling is at mode 0644 while the enumerated sibling is already gone. -/
def fsGhost6 : FS :=
  { dirs := fun _ => none,
    files := fun q => if q = "kept.log" then some { mode := 0o644, content := [] } else none }

/-- The filesystem produced by a successful guardian pass over `fs6`. -/
def fs6out : FS :=
  (SecureRotatedLogs den0 fs6 ["x.log", "x.log.1"]).toOption.getD emptyFS

/-- The filesystem produced by securing the default live path on an empty
filesystem. -/
def secured6 : FS :=
  (secureLogFile den0 "/var/log/apache2/access.log" emptyFS).toOption.getD emptyFS

/-- The filesystem produced by securing a fresh path on an empty
filesystem. -/
def secured7 : FS :=
  (secureLogFile den0 "/logs/app/access.log" emptyFS).toOption.getD emptyFS

/-- A directory with one pre-existing log file at mode 0644 with non-empty
content. -/
def fsC10 : FS :=
  { dirs := fun _ => none,
    files := fun q => if q = "/logs/a.log" then some { mode := 0o644, content := [1, 2, 3] } else none }

/-- The filesystem produced by securing the pre-existing file of `fsC10`. -/
def secured10 : FS :=
  (secureLogFile den0 "/logs/a.log" fsC10).toOption.getD emptyFS

/-- A handler that sets status 404 and writes five bytes. -/
def nextOk : Request → ResponseWrapper → Except Panic ResponseWrapper :=
  fun _ w => .ok { w with status := 404, size := 5 }

/-- A handler that panics. -/
def nextPanic : Request → ResponseWrapper → Except Panic ResponseWrapper :=
  fun _ _ => .error ("handler panic")

set_option maxHeartbeats 2000000

/-- C1: for every observation the Common-format output is exactly the
spec's template line (remote address, two literal dashes, bracketed
timestamp with two-digit day, month abbreviation, four-digit year,
zero-padded time and sign-hours-minutes offset, quoted request line,
status, bytes), and on the fixed observation with remote address 1.2.3.4,
request GET /api/hello HTTP/1.1, status 200, 27 bytes, start
10 Oct 2023 13:55:36 UTC it is the exact expected literal. -/
theorem commonLine_matches_spec :
    (∀ (r : Request) (w : ResponseWrapper) (t : GoTime),
        formatLogEntry r w t CommonLogFormat = specCommonLine r w t)
    ∧ formatLogEntry exReq { status := 200, size := 27 } exTime CommonLogFormat =
        "1.2.3.4 - - [10/Oct/2023:13:55:36 +0000] \"GET /api/hello HTTP/1.1\" 200 27" := by
  constructor
  · intro r w t
    apply String.ext
    simp only [formatLogEntry, specCommonLine, formatApacheTime, CommonLogFormat,
      CombinedLogFormat]
    rw [if_neg (by decide)]
    simp only [String.data_append, List.append_assoc]
    rfl
  · rfl

/-- C2 counterexample: after the handler sets status 301 and then 404, the
wrapper records 404, not the first value 301. -/
theorem writeHeader_last_wins_cex :
    (applyWriteHeaders initialWrapper [301, 404]).status = 404
    ∧ ¬ (applyWriteHeaders initialWrapper [301, 404]).status = 301 := by
  decide

/-- C2 amended: the wrapper records the most recent status code the handler
sets — each WriteHeader call overwrites the recorded value — and when the
handler never sets one the recorded status stays at the default 200. -/
theorem writeHeader_records_last_status :
    (∀ (rw : ResponseWrapper) (ss : List Nat),
        (applyWriteHeaders rw ss).status = ss.getLastD rw.status)
    ∧ (applyWriteHeaders initialWrapper []).status = 200 := by
  constructor
  · intro rw ss
    induction ss generalizing rw with
    | nil => rfl
    | cons s ss ih =>
        show (applyWriteHeaders (rw.writeHeader s) ss).status = _
        rw [ih, List.getLastD_cons]
        rfl
  · rfl

/-- C4: across any sequence of body writes, the wrapper's byte count grows
by exactly the number of bytes the underlying writer actually accepted
(partial, failing writes included); each call hands the underlying writer
exactly the accepted prefix of the submitted bytes and returns the
underlying count and error unmodified. -/
theorem wrapper_size_counts_accepted_bytes :
    (∀ (st : ResponseWrapper × UnderlyingWriter) (bs : List (List Nat)),
        ((runWrites st bs).1.1).size + st.2.received.length
          = st.1.size + ((runWrites st bs).1.2).received.length)
    ∧ (∀ (u : UnderlyingWriter) (b : List Nat),
        (u.write b).1.received = u.received ++ b.take (u.write b).2.1)
    ∧ (∀ (st : ResponseWrapper × UnderlyingWriter) (b : List Nat),
        (wrapperWrite st b).2 = (st.2.write b).2) := by
  have hrec : ∀ (u : UnderlyingWriter) (b : List Nat),
      (u.write b).1.received = u.received ++ b.take (u.write b).2.1 := by
    intro u b
    rcases u with ⟨rec, plan⟩
    cases plan with
    | nil => simp [UnderlyingWriter.write]
    | cons o rest => simp [UnderlyingWriter.write]
  have hlen : ∀ (u : UnderlyingWriter) (b : List Nat),
      (u.write b).1.received.length = u.received.length + (u.write b).2.1 := by
    intro u b
    rw [hrec]
    rcases u with ⟨rec, plan⟩
    cases plan with
    | nil => simp [UnderlyingWriter.write]
    | cons o rest =>
        simp only [UnderlyingWriter.write, List.length_append, List.length_take]
        omega
  refine ⟨?_, hrec, fun st b => rfl⟩
  intro st bs
  induction bs generalizing st with
  | nil => rfl
  | cons b bs ih =>
      show ((runWrites (wrapperWrite st b).1 bs).1.1).size + st.2.received.length
          = st.1.size + ((runWrites (wrapperWrite st b).1 bs).1.2).received.length
      have h := ih (wrapperWrite st b).1
      have h1 : ((wrapperWrite st b).1.1).size = st.1.size + (st.2.write b).2.1 := rfl
      have h2 : ((wrapperWrite st b).1.2).received.length
          = st.2.received.length + (st.2.write b).2.1 := hlen st.2 b
      omega

/-- C5: the Combined-format line is the Common-format line extended with
the quoted Referer then User-Agent values, each rendered as a dash when
empty or absent; with both headers absent the line ends with two quoted
dashes, never empty quotes. -/
theorem combinedLine_extends_common :
    (∀ (r : Request) (w : ResponseWrapper) (t : GoTime),
        formatLogEntry r w t CombinedLogFormat =
          formatLogEntry r w t CommonLogFormat ++ " \"" ++
            (if r.referer = "" then "-" else r.referer) ++ "\" \"" ++
            (if r.userAgent = "" then "-" else r.userAgent) ++ "\"")
    ∧ (∀ (r : Request) (w : ResponseWrapper) (t : GoTime),
        formatLogEntry { r with referer := "", userAgent := "" } w t CombinedLogFormat =
          formatLogEntry { r with referer := "", userAgent := "" } w t CommonLogFormat
            ++ " \"-\" \"-\"") := by
  have hbase : ∀ (r : Request) (w : ResponseWrapper) (t : GoTime),
      formatLogEntry r w t CombinedLogFormat =
        formatLogEntry r w t CommonLogFormat ++ " \"" ++
          (if r.referer = "" then "-" else r.referer) ++ "\" \"" ++
          (if r.userAgent = "" then "-" else r.userAgent) ++ "\"" := by
    intro r w t
    simp only [formatLogEntry, CommonLogFormat, CombinedLogFormat]
    rw [if_neg (show ¬ ("common" : String) = "combined" by decide)]
    simp
  refine ⟨hbase, fun r w t => ?_⟩
  rw [hbase]
  apply String.ext
  simp only [String.data_append, List.append_assoc]
  rfl

/-- C9: every format value other than the exact string "combined" — the
empty string and unrecognized values included — yields the Common-format
line, and no format value yields an empty line. -/
theorem formatLogEntry_default_common :
    ∀ (r : Request) (w : ResponseWrapper) (t : GoTime) (fmt : LogFormat),
      (¬ fmt = CombinedLogFormat →
          formatLogEntry r w t fmt = formatLogEntry r w t CommonLogFormat)
      ∧ ¬ formatLogEntry r w t fmt = "" := by
  intro r w t fmt
  constructor
  · intro h
    simp only [formatLogEntry, CommonLogFormat, CombinedLogFormat] at h ⊢
    rw [if_neg h, if_neg (by decide)]
  · intro h
    rw [String.ext_iff] at h
    by_cases hc : fmt = CombinedLogFormat <;>
      simp [formatLogEntry, formatApacheTime, hc, String.data_append,
        List.append_assoc] at h

/-- C9 witness: the empty format string is not "combined", so it renders
the Common line, and that line is non-empty. -/
theorem formatLogEntry_default_common_witness :
    formatLogEntry exReq { status := 200, size := 27 } exTime "" =
      formatLogEntry exReq { status := 200, size := 27 } exTime CommonLogFormat
    ∧ ¬ formatLogEntry exReq { status := 200, size := 27 } exTime "" = "" :=
  ⟨(formatLogEntry_default_common exReq { status := 200, size := 27 } exTime "").1 (by decide),
   (formatLogEntry_default_common exReq { status := 200, size := 27 } exTime "").2⟩

/-- Creating a missing directory never touches the file map. -/
theorem mkdirAll_files (fs : FS) (d : String) (m : Nat) :
    (mkdirAll fs d m).files = fs.files := by
  unfold mkdirAll
  split <;> rfl

/-- After mkdirAll the directory exists. -/
theorem mkdirAll_dirs_isSome (fs : FS) (d : String) (m : Nat) :
    ((mkdirAll fs d m).dirs d).isSome = true := by
  unfold mkdirAll
  split
  · rename_i v hv
    rw [hv]
    rfl
  · simp

/-- mkdirAll on an existing directory is the identity. -/
theorem mkdirAll_of_isSome (fs : FS) (d : String) (m : Nat)
    (h : (fs.dirs d).isSome = true) : mkdirAll fs d m = fs := by
  unfold mkdirAll
  split
  · rfl
  · rename_i hv
    rw [hv] at h
    simp at h

/-- mkdirAll on a missing directory records the requested mode. -/
theorem mkdirAll_dirs_of_none (fs : FS) (d : String) (m : Nat)
    (h : fs.dirs d = none) : (mkdirAll fs d m).dirs d = some m := by
  unfold mkdirAll
  rw [h]
  simp

/-- Chmod never touches the directory map. -/
theorem chmodFile_dirs (fs : FS) (p : String) (m : Nat) :
    (chmodFile fs p m).dirs = fs.dirs := rfl

/-- File creation never touches the directory map. -/
theorem createFile_dirs (fs : FS) (p : String) (m : Nat) :
    (createFile fs p m).dirs = fs.dirs := rfl

/-- A successful secureLogFile run leaves the directory map as mkdirAll
left it. -/
theorem secureLogFile_dirs (denied : String → Bool) (p : String) (fs fs' : FS)
    (h : secureLogFile denied p fs = .ok fs') :
    fs'.dirs = (mkdirAll fs (dirName p) 0o750).dirs := by
  simp only [secureLogFile] at h
  split at h
  · injection h with h2
    subst h2
    rfl
  · split at h
    · split at h
      · cases h
      · injection h with h2
        subst h2
        rfl
    · injection h with h2
      subst h2
      rfl

/-- A filesystem whose live file already exists at mode 0640 and whose
parent directory already exists is a fixed point of secureLogFile. -/
theorem secureLogFile_fixed (denied : String → Bool) (p : String) (fs2 : FS)
    (hd : (fs2.dirs (dirName p)).isSome = true)
    (hf : (fs2.files p).map FileRec.mode = some 0o640) :
    secureLogFile denied p fs2 = .ok fs2 := by
  have hm := mkdirAll_of_isSome fs2 (dirName p) 0o750 hd
  simp only [secureLogFile, hm]
  split
  · rename_i hnone
    rw [hnone] at hf
    simp at hf
  · rename_i r hsome
    rw [hsome] at hf
    simp only [Option.map_some'] at hf
    injection hf with hf
    rw [if_neg (not_not_intro hf)]

/-- The fix-up loop keeps every file that is already at mode 0640 at mode
0640. -/
theorem loop_preserves_0640 (denied : String → Bool) (ms : List String) :
    ∀ (fs fs' : FS), secureRotatedLoop denied fs ms = .ok fs' →
      ∀ q, (fs.files q).map FileRec.mode = some 0o640 →
        (fs'.files q).map FileRec.mode = some 0o640 := by
  induction ms with
  | nil =>
      intro fs fs' h q hq
      injection h with h2
      subst h2
      exact hq
  | cons m rest ih =>
      intro fs fs' h q hq
      simp only [secureRotatedLoop] at h
      split at h
      · cases h
      · rename_i info hfm
        split at h
        · split at h
          · cases h
          · apply ih _ _ h
            by_cases hqm : q = m
            · subst hqm
              simp [chmodFile, hfm]
            · simpa [chmodFile, hqm] using hq
        · exact ih fs fs' h q hq

/-- C3 counterexample: with one enumerated candidate already deleted
(a stat "file not found"), the whole pass fails with that stat error
instead of skipping the candidate, and the remaining candidate — still at
mode 0644 — is never processed. -/
theorem secureRotatedLogs_not_found_aborts_cex :
    SecureRotatedLogs den0 fsGhost ["ghost.log", "live.log"]
        = .error ("failed to stat log file ghost.log")
    ∧ (fsGhost.files "live.log").map FileRec.mode = some 0o644 :=
  ⟨rfl, rfl⟩

/-- C3 amended: any filesystem error while fixing up one candidate —
a stat "file not found" as much as a chmod failure — aborts the whole pass
immediately: SecureRotatedLogs returns that error and the remaining
candidates are not processed. -/
theorem secureRotatedLogs_error_aborts_pass :
    ∀ (denied : String → Bool) (fs : FS) (m : String) (rest : List String),
      (fs.files m = none →
          SecureRotatedLogs denied fs (m :: rest)
            = .error ("failed to stat log file " ++ m))
      ∧ (∀ info : FileRec, fs.files m = some info → ¬ info.mode = 0o640 →
          denied m = true →
          SecureRotatedLogs denied fs (m :: rest)
            = .error ("failed to chmod log file " ++ m)) := by
  intro denied fs m rest
  constructor
  · intro h
    simp only [SecureRotatedLogs, secureRotatedLoop]
    split
    · rfl
    · rename_i info2 hsome
      rw [h] at hsome
      cases hsome
  · intro info h hm hd
    simp only [SecureRotatedLogs, secureRotatedLoop]
    split
    · rename_i hnone
      rw [h] at hnone
      cases hnone
    · rename_i info2 hsome
      rw [h] at hsome
      injection hsome with hinfo
      subst hinfo
      rw [if_pos hm, hd]
      simp

/-- C3 amended witness: the concrete directory of `fsGhost` aborts on a
missing candidate, and with chmod denied it aborts on the live file. -/
theorem secureRotatedLogs_error_aborts_pass_witness :
    SecureRotatedLogs den0 fsGhost ["ghost.log"]
        = .error ("failed to stat log file ghost.log")
    ∧ SecureRotatedLogs den1 fsGhost ["live.log"]
        = .error ("failed to chmod log file live.log") :=
  ⟨(secureRotatedLogs_error_aborts_pass den0 fsGhost "ghost.log" []).1 rfl,
   (secureRotatedLogs_error_aborts_pass den1 fsGhost "live.log" []).2
     { mode := 0o644, content := [] } rfl (by decide) rfl⟩

/-- C6 counterexample: the directory housing the log file is created with
mode 0750 — its group bits are read-execute, not the claimed
read-write-execute — and a pass that hits a vanished candidate ends with a
matched sibling still at mode 0644. -/
theorem guardian_dir_mode_cex :
    secured6.dirs (dirName "/var/log/apache2/access.log") = some 0o750
    ∧ ¬ (0o750 / 8) % 8 = 7
    ∧ SecureRotatedLogs den0 fsGhost6 ["gone.log", "kept.log"]
        = .error ("failed to stat log file gone.log")
    ∧ (fsGhost6.files "kept.log").map FileRec.mode = some 0o644 :=
  ⟨rfl, by decide, rfl, rfl⟩

/-- C6 amended: after each successful guardian pass every candidate file
has mode exactly 0640, and the directory created to house the log file is
created with mode 0750 — owner read-write-execute, group read-execute, no
world access. -/
theorem guardian_pass_modes :
    (∀ (denied : String → Bool) (fs : FS) (ms : List String) (fs' : FS),
        SecureRotatedLogs denied fs ms = .ok fs' →
        ∀ m, m ∈ ms → (fs'.files m).map FileRec.mode = some 0o640)
    ∧ (∀ (denied : String → Bool) (p : String) (fs fs' : FS),
        fs.dirs (dirName p) = none → secureLogFile denied p fs = .ok fs' →
        fs'.dirs (dirName p) = some 0o750) := by
  constructor
  · intro denied fs ms
    induction ms generalizing fs with
    | nil =>
        intro fs' h m hm
        cases hm
    | cons m rest ih =>
        intro fs' h m2 hm2
        simp only [SecureRotatedLogs, secureRotatedLoop] at h
        split at h
        · cases h
        · rename_i info hfm
          split at h
          · split at h
            · cases h
            · rcases List.mem_cons.mp hm2 with h2 | h2
              · subst h2
                exact loop_preserves_0640 denied rest _ fs' h m2
                  (by simp [chmodFile, hfm])
              · exact ih _ _ h m2 h2
          · rename_i hmode
            have hm640 : info.mode = 0o640 := not_not.mp hmode
            rcases List.mem_cons.mp hm2 with h2 | h2
            · subst h2
              exact loop_preserves_0640 denied rest fs fs' h m2
                (by simp [hfm, hm640])
            · exact ih fs _ h m2 h2
  · intro denied p fs fs' hd h
    rw [congrFun (secureLogFile_dirs denied p fs fs' h) (dirName p)]
    exact mkdirAll_dirs_of_none fs (dirName p) 0o750 hd

/-- C6 amended witness: on the specification's test directory with files
at 0644 and 0600 the pass succeeds and both files end at mode 0640, and
securing the default live path on an empty filesystem creates its
directory with mode 0750. -/
theorem guardian_pass_modes_witness :
    (fs6out.files "x.log").map FileRec.mode = some 0o640
    ∧ (fs6out.files "x.log.1").map FileRec.mode = some 0o640
    ∧ secured6.dirs (dirName "/var/log/apache2/access.log") = some 0o750 :=
  ⟨guardian_pass_modes.1 den0 fs6 ["x.log", "x.log.1"] fs6out rfl "x.log"
     (by simp),
   guardian_pass_modes.1 den0 fs6 ["x.log", "x.log.1"] fs6out rfl "x.log.1"
     (by simp),
   guardian_pass_modes.2 den0 "/var/log/apache2/access.log" emptyFS secured6
     rfl rfl⟩

/-- C7: a successful secureLogFile run leaves the parent directory in
place, leaves the file at path existing with mode exactly 0640 — created
as an empty 0640 file when it was absent — and is idempotent: running it
again on the resulting state succeeds and changes nothing. -/
theorem secureLogFile_ensures_and_idempotent :
    ∀ (denied : String → Bool) (p : String) (fs fs' : FS),
      secureLogFile denied p fs = .ok fs' →
        (fs'.dirs (dirName p)).isSome = true
        ∧ (fs'.files p).map FileRec.mode = some 0o640
        ∧ (fs.files p = none → fs'.files p = some { mode := 0o640, content := [] })
        ∧ secureLogFile denied p fs' = .ok fs' := by
  intro denied p fs fs' h
  have hdirs : fs'.dirs = (mkdirAll fs (dirName p) 0o750).dirs :=
    secureLogFile_dirs denied p fs fs' h
  have hdir : (fs'.dirs (dirName p)).isSome = true := by
    rw [congrFun hdirs (dirName p)]
    exact mkdirAll_dirs_isSome fs (dirName p) 0o750
  have hfiles1 : (mkdirAll fs (dirName p) 0o750).files = fs.files :=
    mkdirAll_files fs (dirName p) 0o750
  simp only [secureLogFile] at h
  split at h
  · rename_i hfp
    injection h with h2
    subst h2
    exact ⟨hdir, by simp [createFile], fun _ => by simp [createFile],
      secureLogFile_fixed denied p _ hdir (by simp [createFile])⟩
  · rename_i info hfp
    have hexists : fs.files p = some info := by
      rw [← congrFun hfiles1 p]
      exact hfp
    split at h
    · split at h
      · cases h
      · injection h with h2
        subst h2
        refine ⟨hdir, by simp [chmodFile, hfp], fun hc => ?_, ?_⟩
        · rw [hexists] at hc
          cases hc
        · exact secureLogFile_fixed denied p _ hdir (by simp [chmodFile, hfp])
    · rename_i hm
      have hm640 : info.mode = 0o640 := not_not.mp hm
      injection h with h2
      subst h2
      refine ⟨hdir, by simp [hfp, hm640], fun hc => ?_, ?_⟩
      · rw [hexists] at hc
        cases hc
      · exact secureLogFile_fixed denied p _ hdir (by simp [hfp, hm640])

/-- C7 witness: securing a fresh path on an empty filesystem creates the
directory and an empty mode-0640 file, and running secureLogFile again on
the result is a no-op that succeeds. -/
theorem secureLogFile_ensures_and_idempotent_witness :
    (secured7.dirs (dirName "/logs/app/access.log")).isSome = true
    ∧ (secured7.files "/logs/app/access.log").map FileRec.mode = some 0o640
    ∧ secured7.files "/logs/app/access.log" = some { mode := 0o640, content := [] }
    ∧ secureLogFile den0 "/logs/app/access.log" secured7 = .ok secured7 := by
  have h := secureLogFile_ensures_and_idempotent den0 "/logs/app/access.log"
    emptyFS secured7 rfl
  exact ⟨h.1, h.2.1, h.2.2.1 rfl, h.2.2.2⟩

/-- C8: whenever control returns through the middleware frame it appends
exactly one formatted line for the request — built from the captured start
time, the request metadata and the final observation — and a handler panic
propagates unchanged with nothing logged. -/
theorem middleware_logs_exactly_one_line :
    ∀ (fmt : LogFormat) (next : Request → ResponseWrapper → Except Panic ResponseWrapper)
      (r : Request) (start : GoTime) (logged : List String),
      (∀ w, next r initialWrapper = .ok w →
          ApacheLogMiddleware fmt next r start logged
            = .ok (logged ++ [formatLogEntry r w start fmt]))
      ∧ (∀ p, next r initialWrapper = .error p →
          ApacheLogMiddleware fmt next r start logged = .error p) := by
  intro fmt next r start logged
  constructor
  · intro w hw
    simp only [ApacheLogMiddleware, hw]
  · intro p hp
    simp only [ApacheLogMiddleware, hp]

/-- C8 witness: a returning handler yields exactly the one formatted line
for its final observation, and a panicking handler propagates its panic
with nothing logged. -/
theorem middleware_logs_exactly_one_line_witness :
    ApacheLogMiddleware CommonLogFormat nextOk exReq exTime []
        = .ok [formatLogEntry exReq { status := 404, size := 5 } exTime CommonLogFormat]
    ∧ ApacheLogMiddleware CommonLogFormat nextPanic exReq exTime []
        = .error ("handler panic") := by
  constructor
  · have h := (middleware_logs_exactly_one_line CommonLogFormat nextOk exReq exTime []).1
      { status := 404, size := 5 } rfl
    simpa using h
  · exact (middleware_logs_exactly_one_line CommonLogFormat nextPanic exReq exTime []).2
      "handler panic" rfl

/-- C10: when a file already exists at the path, secureLogFile changes at
most that file's permission bits — its content survives and every other
file is untouched. -/
theorem secureLogFile_frame_existing_file :
    ∀ (denied : String → Bool) (p : String) (fs fs' : FS) (r : FileRec),
      fs.files p = some r → secureLogFile denied p fs = .ok fs' →
        fs'.files p = some { mode := 0o640, content := r.content }
        ∧ ∀ q, ¬ q = p → fs'.files q = fs.files q := by
  intro denied p fs fs' r hr h
  have hfiles1 : (mkdirAll fs (dirName p) 0o750).files = fs.files :=
    mkdirAll_files fs (dirName p) 0o750
  simp only [secureLogFile] at h
  split at h
  · rename_i hnone
    rw [congrFun hfiles1 p, hr] at hnone
    cases hnone
  · rename_i info hsome
    have hinfo : info = r := by
      rw [congrFun hfiles1 p, hr] at hsome
      injection hsome with h2
      exact h2.symm
    subst hinfo
    split at h
    · split at h
      · cases h
      · injection h with h2
        subst h2
        constructor
        · simp [chmodFile, congrFun hfiles1 p, hr]
        · intro q hq
          simp [chmodFile, hq, congrFun hfiles1 q]
    · rename_i hm
      have hm640 : info.mode = 0o640 := not_not.mp hm
      injection h with h2
      subst h2
      constructor
      · rw [congrFun hfiles1 p, hr, ← hm640]
      · intro q _
        exact congrFun hfiles1 q

/-- C10 witness: securing a pre-existing 0644 file with content bytes
1, 2, 3 leaves those bytes in place at mode 0640 and leaves an unrelated
path untouched. -/
theorem secureLogFile_frame_existing_file_witness :
    secured10.files "/logs/a.log" = some { mode := 0o640, content := [1, 2, 3] }
    ∧ secured10.files "/logs/b.log" = fsC10.files "/logs/b.log" := by
  have h := secureLogFile_frame_existing_file den0 "/logs/a.log" fsC10 secured10
    { mode := 0o644, content := [1, 2, 3] } rfl rfl
  exact ⟨h.1, h.2 "/logs/b.log" (by decide)⟩

end HttpLogging
